import Mathlib

/-!
Verification of the image-request lifecycle controller and encoding utility
of the merch-mockup front end.

The embedding models:
  * `getMimeType` and `fileToBase64` from `src/utils/fileUtils.ts`;
  * the session state (`logo`, `logoPreview`, `productDescription`,
    `editPrompt`, `generatedImage`, `status`, `error`) and the handlers
    `handleLogoChange`, `handleGenerate`, `handleEdit` of the `App`
    component in `src/unnamed/part_000`;
  * the triggering buttons with their `disabled` predicates, as
    `pressGenerate` / `pressEdit`.

Asynchronous external effects are made explicit data: the outcome of the
file read is stored on the file (`readOk`), and the outcome of each
external capability call (`generateImage` / `editImage`) is a parameter of
type `Except Thrown String`, where `Thrown` models a JavaScript thrown
value (an `Error` carrying a message, or any other value).  Each handler
returns the new session state together with the capability call it issued,
if any, so that "the capability is never invoked" is a statement about the
returned `Option`.
-/

namespace MerchMockup

/-- The `Status` union type: `'idle' | 'generating' | 'editing' | 'success' | 'error'`. -/
inductive Status where
  | idle
  | generating
  | editing
  | success
  | error
deriving DecidableEq, Repr

/-- A thrown JavaScript value, as discriminated by `e instanceof Error` in the
`catch` blocks: either an `Error` object carrying a message, or any other value. -/
inductive Thrown where
  | errorObj (msg : String)
  | nonError
deriving DecidableEq, Repr

/-- The message the `catch` blocks surface:
`e instanceof Error ? e.message : 'An unknown error occurred.'`. -/
def Thrown.toMessage : Thrown → String
  | .errorObj m => m
  | .nonError => "An unknown error occurred."

/-- A user-selected `File`: its declared media type (`file.type`), the base64
payload a successful `FileReader` read yields, and whether the read succeeds. -/
structure SrcFile where
  declaredType : String
  base64Data : String
  readOk : Bool
deriving DecidableEq, Repr

/-- `fileToBase64` from `src/utils/fileUtils.ts`: resolves with the base64 part
of the data URL, or rejects (here: with the non-string-result `Error`). -/
def fileToBase64 (f : SrcFile) : Except Thrown String :=
  if f.readOk then Except.ok f.base64Data
  else Except.error (Thrown.errorObj "Failed to read file as base64 string.")

/-- `getMimeType` from `src/utils/fileUtils.ts`: the allow-list switch. -/
def getMimeType (fileType : String) : Option String :=
  match fileType with
  | "image/png" => some "image/png"
  | "image/jpeg" => some "image/jpeg"
  | "image/webp" => some "image/webp"
  | _ => none

/-- The session state of the `App` component (one `useState` per field). -/
structure AppState where
  logo : Option SrcFile
  logoPreview : Option String
  productDescription : String
  editPrompt : String
  generatedImage : Option String
  status : Status
  error : Option String
deriving DecidableEq, Repr

/-- The arguments of a `generateImage(base64ImageData, mimeType, prompt)` call. -/
structure GenCall where
  base64ImageData : String
  mimeType : String
  prompt : String
deriving DecidableEq, Repr

/-- The arguments of an `editImage(base64ImageData, mimeType, prompt)` call.
The payload is `generatedImage.split(',')[1]`, which is `undefined` (`none`)
when the data URL contains no comma. -/
structure EditCall where
  base64ImageData : Option String
  mimeType : String
  prompt : String
deriving DecidableEq, Repr

/-- `handleLogoChange`: if the change event yields a file, set `logo`, await the
preview read, then set the preview, clear `generatedImage` and `error`.  A
rejected read aborts the async function after `setLogo` has already run. -/
def handleLogoChange (eventFile : Option SrcFile) (s : AppState) : AppState :=
  match eventFile with
  | none => s
  | some file =>
    let s1 := { s with logo := some file }
    match fileToBase64 file with
    | Except.error _ => s1
    | Except.ok preview =>
      { s1 with logoPreview := some preview, generatedImage := none, error := none }

/-- `handleGenerate`: validation (`!logo || !productDescription`), then
`setStatus('generating')`, `setError(null)`, `setGeneratedImage(null)`, then the
try block: file read, mime-type check, capability call; the catch block sets
`error` and `status`.  `genOutcome` is the response of the external
`generateImage` capability; the second component is the call issued, if any. -/
def handleGenerate (genOutcome : Except Thrown String) (s : AppState) :
    AppState × Option GenCall :=
  match s.logo with
  | none =>
    ({ s with error := some "Please upload a logo and provide a product description." }, none)
  | some logo =>
    if s.productDescription = "" then
      ({ s with error := some "Please upload a logo and provide a product description." }, none)
    else
      let s1 := { s with status := Status.generating, error := none, generatedImage := none }
      match fileToBase64 logo with
      | Except.error t =>
        ({ s1 with error := some t.toMessage, status := Status.error }, none)
      | Except.ok logoBase64 =>
        match getMimeType logo.declaredType with
        | none =>
          ({ s1 with error := some "Unsupported file type.", status := Status.error }, none)
        | some mimeType =>
          let call : GenCall :=
            { base64ImageData := logoBase64, mimeType := mimeType,
              prompt := s.productDescription }
          match genOutcome with
          | Except.ok result =>
            ({ s1 with generatedImage := some result, status := Status.success }, some call)
          | Except.error t =>
            ({ s1 with error := some t.toMessage, status := Status.error }, some call)

/-- `handleEdit`: validation (`!generatedImage || !editPrompt`, where the empty
string is falsy), then `setStatus('editing')`, `setError(null)`, then the try
block: jpeg-prefix mime heuristic, payload split, capability call; the catch
block sets `error` and `status`.  `editOutcome` is the response of the external
`editImage` capability; the second component is the call issued, if any. -/
def handleEdit (editOutcome : Except Thrown String) (s : AppState) :
    AppState × Option EditCall :=
  match s.generatedImage with
  | none =>
    ({ s with error := some "Please generate an image and provide an edit prompt." }, none)
  | some img =>
    if img = "" ∨ s.editPrompt = "" then
      ({ s with error := some "Please generate an image and provide an edit prompt." }, none)
    else
      let s1 := { s with status := Status.editing, error := none }
      let mimeType := if img.startsWith "data:image/jpeg" then "image/jpeg" else "image/png"
      let base64Data := (img.splitOn ",").get? 1
      let call : EditCall :=
        { base64ImageData := base64Data, mimeType := mimeType, prompt := s.editPrompt }
      match editOutcome with
      | Except.ok result =>
        ({ s1 with generatedImage := some result, editPrompt := "",
                   status := Status.success }, some call)
      | Except.error t =>
        ({ s1 with error := some t.toMessage, status := Status.error }, some call)

/-- `isLoading = status === 'generating' || status === 'editing'`. -/
def isLoading (s : AppState) : Bool :=
  match s.status with
  | Status.generating => true
  | Status.editing => true
  | _ => false

/-- The generate button's `disabled={!logo || !productDescription || isLoading}`. -/
def generateDisabled (s : AppState) : Bool :=
  s.logo.isNone || decide (s.productDescription = "") || isLoading s

/-- The edit button's `disabled={!editPrompt || isLoading}`. -/
def editDisabled (s : AppState) : Bool :=
  decide (s.editPrompt = "") || isLoading s

/-- Whether the output panel renders the edit controls at all: the panel shows
the spinner while loading, and the edit input/button only when `generatedImage`
is truthy. -/
def editShown (s : AppState) : Bool :=
  !isLoading s && decide (s.generatedImage.getD "" ≠ "")

/-- A press of the generate button: a disabled button fires no handler. -/
def pressGenerate (genOutcome : Except Thrown String) (s : AppState) :
    AppState × Option GenCall :=
  if generateDisabled s then (s, none) else handleGenerate genOutcome s

/-- A press of the edit button: it must be rendered and enabled to fire. -/
def pressEdit (editOutcome : Except Thrown String) (s : AppState) :
    AppState × Option EditCall :=
  if !editShown s || editDisabled s then (s, none) else handleEdit editOutcome s

/-- A well-formed PNG file whose read succeeds. -/
def pngFile : SrcFile :=
  { declaredType := "image/png", base64Data := "iVBORw0KGgo", readOk := true }

/-- A GIF file (declared type outside the allow-list) whose read succeeds. -/
def gifFile : SrcFile :=
  { declaredType := "image/gif", base64Data := "R0lGODlh", readOk := true }

/-- A PNG file whose read fails. -/
def badReadFile : SrcFile :=
  { declaredType := "image/png", base64Data := "iVBORw0KGgo", readOk := false }

/-- A session state ready to generate, with a previous image and an old error. -/
def readyState : AppState :=
  { logo := some pngFile, logoPreview := some "iVBORw0KGgo",
    productDescription := "a white t-shirt", editPrompt := "add a retro filter",
    generatedImage := some "data:image/png;base64,OLD", status := Status.success,
    error := some "old error" }

/-- `readyState` with a GIF logo and idle status. -/
def gifState : AppState :=
  { readyState with logo := some gifFile, status := Status.idle }

/-- `readyState` with no logo selected. -/
def noLogoState : AppState :=
  { readyState with logo := none }

/-- `readyState` with no generated image. -/
def noImageState : AppState :=
  { readyState with generatedImage := none }

/-- `readyState` while a generate request is in flight. -/
def busyState : AppState :=
  { readyState with status := Status.generating }

/-- `readyState` whose current image is a jpeg data URL. -/
def jpegState : AppState :=
  { readyState with generatedImage := some "data:image/jpeg;base64,AAA" }

/-- Claim C5: `getMimeType` returns one of the three allow-listed canonical tags
exactly when the input is one of those three strings, and returns `null` for
every other input.  (Purity is immediate: it is a function of its argument.) -/
theorem C5_getMimeType_allowlist (t : String) :
    getMimeType t =
      if t = "image/png" ∨ t = "image/jpeg" ∨ t = "image/webp" then some t else none := by
  unfold getMimeType
  split <;> simp_all

/-- Claim C6: a generate call with an absent `SourceFile` or an empty
`ProductDescription` never invokes the generation capability, sets
`ErrorMessage` to the validation message, and changes nothing else — in
particular `RequestStatus` is unchanged. -/
theorem C6_generate_precondition (g : Except Thrown String) (s : AppState)
    (h : s.logo = none ∨ s.productDescription = "") :
    handleGenerate g s =
      ({ s with
          error := some "Please upload a logo and provide a product description." }, none) := by
  unfold handleGenerate
  rcases h with h | h
  · rw [h]
  · cases hl : s.logo <;> simp [h]

/-- Witness for C6 at a concrete state with no logo. -/
theorem C6_witness :
    handleGenerate (Except.ok "RES") noLogoState =
      ({ noLogoState with
          error := some "Please upload a logo and provide a product description." }, none) :=
  C6_generate_precondition (Except.ok "RES") noLogoState (Or.inl rfl)

/-- Claim C7: an edit call with an absent `GeneratedImage` or an empty
`EditInstruction` never invokes the edit capability, sets `ErrorMessage` to the
validation message, and changes nothing else — in particular `RequestStatus`
is unchanged. -/
theorem C7_edit_precondition (ed : Except Thrown String) (s : AppState)
    (h : s.generatedImage = none ∨ s.editPrompt = "") :
    handleEdit ed s =
      ({ s with
          error := some "Please generate an image and provide an edit prompt." }, none) := by
  unfold handleEdit
  rcases h with h | h
  · rw [h]
  · cases hi : s.generatedImage <;> simp [h]

/-- Witness for C7 at a concrete state with no generated image. -/
theorem C7_witness :
    handleEdit (Except.ok "RES") noImageState =
      ({ noImageState with
          error := some "Please generate an image and provide an edit prompt." }, none) :=
  C7_edit_precondition (Except.ok "RES") noImageState (Or.inl rfl)

/-- Counterexample to claim C1: at a concrete idle state with a `image/gif`
logo, the capability is not invoked and the error is set, but `RequestStatus`
does not remain unchanged — the handler moves it to `error`. -/
theorem C1_counterexample :
    (handleGenerate (Except.ok "RES") gifState).2 = none ∧
    (handleGenerate (Except.ok "RES") gifState).1.error = some "Unsupported file type." ∧
    gifState.status = Status.idle ∧
    (handleGenerate (Except.ok "RES") gifState).1.status ≠ gifState.status := by
  decide

/-- Claim C1 (amended): a generate request with a readable `SourceFile` whose
declared type is outside the allow-list and a non-empty description never
invokes the generation capability and sets `ErrorMessage`, but `RequestStatus`
becomes `error` (the handler enters `generating` before encoding and the catch
block lands on `error`), rather than remaining unchanged. -/
theorem C1_unsupported_type (g : Except Thrown String) (s : AppState) (f : SrcFile)
    (hl : s.logo = some f) (hr : f.readOk = true)
    (hm : getMimeType f.declaredType = none) (hd : s.productDescription ≠ "") :
    (handleGenerate g s).2 = none ∧
    (handleGenerate g s).1.error = some "Unsupported file type." ∧
    (handleGenerate g s).1.status = Status.error := by
  unfold handleGenerate fileToBase64
  rw [hl]
  simp [hd, hr, hm]

/-- Witness for the amended C1 at the concrete GIF state. -/
theorem C1_witness :
    (handleGenerate (Except.ok "RES") gifState).2 = none ∧
    (handleGenerate (Except.ok "RES") gifState).1.error = some "Unsupported file type." ∧
    (handleGenerate (Except.ok "RES") gifState).1.status = Status.error :=
  C1_unsupported_type (Except.ok "RES") gifState gifFile (by decide) (by decide)
    (by decide) (by decide)

/-- Counterexample to claim C2: `readyState` holds a generated image, and the
generate request that fails (capability error) does not leave it present — it
is cleared at the start of the request. -/
theorem C2_counterexample :
    readyState.generatedImage = some "data:image/png;base64,OLD" ∧
    (handleGenerate (Except.error (Thrown.errorObj "boom")) readyState).1.status
      = Status.error ∧
    (handleGenerate (Except.error (Thrown.errorObj "boom")) readyState).1.generatedImage
      = none := by
  decide

/-- Claim C2 (amended): a failing edit request leaves every field other than
`RequestStatus` and `ErrorMessage` unchanged (in particular `GeneratedImage`);
a generate request leaves `logo`, `logoPreview`, `productDescription` and
`editPrompt` unchanged, but once it passes validation any failing outcome
leaves `GeneratedImage` absent, because the handler clears it when the request
starts. -/
theorem C2_failure_frame (s : AppState) (t : Thrown) :
    ((handleEdit (Except.error t) s).1.logo = s.logo ∧
     (handleEdit (Except.error t) s).1.logoPreview = s.logoPreview ∧
     (handleEdit (Except.error t) s).1.productDescription = s.productDescription ∧
     (handleEdit (Except.error t) s).1.editPrompt = s.editPrompt ∧
     (handleEdit (Except.error t) s).1.generatedImage = s.generatedImage) ∧
    (∀ g : Except Thrown String,
     (handleGenerate g s).1.logo = s.logo ∧
     (handleGenerate g s).1.logoPreview = s.logoPreview ∧
     (handleGenerate g s).1.productDescription = s.productDescription ∧
     (handleGenerate g s).1.editPrompt = s.editPrompt) ∧
    (∀ f : SrcFile, s.logo = some f → s.productDescription ≠ "" →
       (handleGenerate (Except.error t) s).1.generatedImage = none) := by
  refine ⟨?_, ?_, ?_⟩
  · unfold handleEdit
    cases hi : s.generatedImage with
    | none => simp
    | some img =>
      by_cases h1 : img = "" ∨ s.editPrompt = ""
      · simp [h1, hi]
      · simp [h1, hi]
  · intro g
    unfold handleGenerate fileToBase64
    cases hs : s.logo with
    | none => simp
    | some f =>
      by_cases hd : s.productDescription = ""
      · simp [hd]
      · cases hro : f.readOk with
        | false => simp [hd, hro]
        | true =>
          cases hm : getMimeType f.declaredType with
          | none => simp [hd, hro, hm]
          | some m =>
            cases g with
            | ok r => simp [hd, hro, hm]
            | error t => simp [hd, hro, hm]
  · intro f hs hd
    unfold handleGenerate fileToBase64
    rw [hs]
    cases hro : f.readOk with
    | false => simp [hd, hro]
    | true =>
      cases hm : getMimeType f.declaredType with
      | none => simp [hd, hro, hm]
      | some m => simp [hd, hro, hm]

/-- Witness for the amended C2 at `readyState` with a failing capability. -/
theorem C2_witness :
    (handleGenerate (Except.error (Thrown.errorObj "boom")) readyState).1.generatedImage
      = none :=
  (C2_failure_frame readyState (Thrown.errorObj "boom")).2.2 pngFile (by decide)
    (by decide)

/-- Claim C3: in any state whose status is `generating` or `editing`, pressing
the generate or edit button does nothing — the buttons are disabled (and the
edit controls are replaced by the spinner), so no second capability invocation
occurs until the first request completes. -/
theorem C3_single_flight (g ed : Except Thrown String) (s : AppState)
    (h : s.status = Status.generating ∨ s.status = Status.editing) :
    pressGenerate g s = (s, none) ∧ pressEdit ed s = (s, none) := by
  have hload : isLoading s = true := by
    rcases h with h | h <;> simp [isLoading, h]
  constructor
  · unfold pressGenerate generateDisabled
    simp [hload]
  · unfold pressEdit editShown
    simp [hload]

/-- Witness for C3 at a concrete in-flight state. -/
theorem C3_witness :
    pressGenerate (Except.ok "RES") busyState = (busyState, none) ∧
    pressEdit (Except.ok "RES") busyState = (busyState, none) :=
  C3_single_flight (Except.ok "RES") (Except.ok "RES") busyState (Or.inl (by decide))

/-- Claim C4: a generate request with a readable PNG logo and a non-empty
description invokes the generation capability with exactly the file's base64
payload, `image/png`, and the description; when the capability succeeds,
`GeneratedImage` is set to the returned payload and `RequestStatus` becomes
`success`. -/
theorem C4_generate_png (s : AppState) (f : SrcFile)
    (hl : s.logo = some f) (ht : f.declaredType = "image/png") (hr : f.readOk = true)
    (hd : s.productDescription ≠ "") :
    (∀ g : Except Thrown String,
      (handleGenerate g s).2 =
        some { base64ImageData := f.base64Data, mimeType := "image/png",
               prompt := s.productDescription }) ∧
    (∀ r : String,
      (handleGenerate (Except.ok r) s).1.generatedImage = some r ∧
      (handleGenerate (Except.ok r) s).1.status = Status.success) := by
  constructor
  · intro g
    cases g <;> simp [handleGenerate, fileToBase64, getMimeType, hl, ht, hr, hd]
  · intro r
    simp [handleGenerate, fileToBase64, getMimeType, hl, ht, hr, hd]

/-- Witness for C4 at `readyState`. -/
theorem C4_witness :
    (handleGenerate (Except.ok "RES") readyState).2 =
      some { base64ImageData := "iVBORw0KGgo", mimeType := "image/png",
             prompt := "a white t-shirt" } ∧
    (handleGenerate (Except.ok "RES") readyState).1.generatedImage = some "RES" ∧
    (handleGenerate (Except.ok "RES") readyState).1.status = Status.success :=
  ⟨(C4_generate_png readyState pngFile (by decide) (by decide) (by decide)
      (by decide)).1 (Except.ok "RES"),
   ((C4_generate_png readyState pngFile (by decide) (by decide) (by decide)
      (by decide)).2 "RES").1,
   ((C4_generate_png readyState pngFile (by decide) (by decide) (by decide)
      (by decide)).2 "RES").2⟩

/-- Claim C8: an edit request that reaches the edit capability sets
`GeneratedImage` to the result, clears `EditInstruction` and moves to `success`
when the capability succeeds; when it fails, `EditInstruction` keeps its
previous value, `ErrorMessage` is set to the message surfaced from the thrown
value, and `RequestStatus` becomes `error`. -/
theorem C8_edit_outcomes (s : AppState) (img : String)
    (hi : s.generatedImage = some img) (hne : img ≠ "") (hp : s.editPrompt ≠ "") :
    (∀ r : String,
      (handleEdit (Except.ok r) s).1.generatedImage = some r ∧
      (handleEdit (Except.ok r) s).1.editPrompt = "" ∧
      (handleEdit (Except.ok r) s).1.status = Status.success) ∧
    (∀ t : Thrown,
      (handleEdit (Except.error t) s).1.editPrompt = s.editPrompt ∧
      (handleEdit (Except.error t) s).1.error = some t.toMessage ∧
      (handleEdit (Except.error t) s).1.status = Status.error) := by
  constructor
  · intro r
    unfold handleEdit
    rw [hi]
    simp [hne, hp]
  · intro t
    unfold handleEdit
    rw [hi]
    simp [hne, hp]

/-- Witness for C8 at `readyState`: a successful edit clears the prompt, a
failing one keeps it and surfaces the failure's message. -/
theorem C8_witness :
    (handleEdit (Except.ok "NEW") readyState).1.editPrompt = "" ∧
    (handleEdit (Except.error (Thrown.errorObj "Edit failed")) readyState).1.editPrompt
      = "add a retro filter" ∧
    (handleEdit (Except.error (Thrown.errorObj "Edit failed")) readyState).1.error
      = some "Edit failed" :=
  ⟨((C8_edit_outcomes readyState "data:image/png;base64,OLD" (by decide) (by decide)
      (by decide)).1 "NEW").2.1,
   ((C8_edit_outcomes readyState "data:image/png;base64,OLD" (by decide) (by decide)
      (by decide)).2 (Thrown.errorObj "Edit failed")).1,
   ((C8_edit_outcomes readyState "data:image/png;base64,OLD" (by decide) (by decide)
      (by decide)).2 (Thrown.errorObj "Edit failed")).2.1⟩

/-- Claim C9: the media type an edit request passes to the edit capability is
`image/jpeg` exactly when the current image payload starts with
`data:image/jpeg`, and `image/png` in every other case. -/
theorem C9_edit_mime (ed : Except Thrown String) (s : AppState) (img : String)
    (hi : s.generatedImage = some img) (hne : img ≠ "") (hp : s.editPrompt ≠ "") :
    ∃ c : EditCall, (handleEdit ed s).2 = some c ∧
      (c.mimeType = "image/jpeg" ↔ img.startsWith "data:image/jpeg" = true) ∧
      (img.startsWith "data:image/jpeg" = false → c.mimeType = "image/png") := by
  refine ⟨{ base64ImageData := (img.splitOn ",").get? 1,
            mimeType :=
              if img.startsWith "data:image/jpeg" then "image/jpeg" else "image/png",
            prompt := s.editPrompt }, ?_, ?_, ?_⟩
  · unfold handleEdit
    rw [hi]
    cases ed <;> simp [hne, hp]
  · cases hj : img.startsWith "data:image/jpeg" <;> simp [hj]
  · intro hj
    simp [hj]

/-- Witness for C9 at `jpegState`, whose image is a jpeg data URL. -/
theorem C9_witness :
    ∃ c : EditCall, (handleEdit (Except.ok "NEW") jpegState).2 = some c ∧
      (c.mimeType = "image/jpeg" ↔
        ("data:image/jpeg;base64,AAA").startsWith "data:image/jpeg" = true) ∧
      (("data:image/jpeg;base64,AAA").startsWith "data:image/jpeg" = false →
        c.mimeType = "image/png") :=
  C9_edit_mime (Except.ok "NEW") jpegState "data:image/jpeg;base64,AAA" (by decide)
    (by decide) (by decide)

/-- Counterexample to claim C10: when the preview read of the newly selected
file fails, the async handler aborts after `setLogo`, so the re-selection
replaces `SourceFile` but neither resets `GeneratedImage` nor clears
`ErrorMessage`. -/
theorem C10_counterexample :
    (handleLogoChange (some badReadFile) readyState).logo = some badReadFile ∧
    (handleLogoChange (some badReadFile) readyState).generatedImage
      = some "data:image/png;base64,OLD" ∧
    (handleLogoChange (some badReadFile) readyState).error = some "old error" := by
  decide

/-- Claim C10 (amended): a file re-selection whose preview read succeeds
replaces `SourceFile`, sets the preview, resets `GeneratedImage` to absent and
clears `ErrorMessage`, leaving `ProductDescription`, `EditInstruction` and
`RequestStatus` unchanged; if the read fails, only `SourceFile` is replaced;
a selection event that yields no file changes nothing. -/
theorem C10_logo_change (s : AppState) (f : SrcFile) :
    (f.readOk = true →
      handleLogoChange (some f) s =
        { s with logo := some f, logoPreview := some f.base64Data,
                 generatedImage := none, error := none }) ∧
    (f.readOk = false →
      handleLogoChange (some f) s = { s with logo := some f }) ∧
    handleLogoChange none s = s := by
  refine ⟨?_, ?_, rfl⟩
  · intro h
    simp [handleLogoChange, fileToBase64, h]
  · intro h
    simp [handleLogoChange, fileToBase64, h]

/-- Witness for the amended C10 at `readyState` with a readable PNG file. -/
theorem C10_witness :
    handleLogoChange (some pngFile) readyState =
      { readyState with logo := some pngFile, logoPreview := some "iVBORw0KGgo",
                        generatedImage := none, error := none } :=
  (C10_logo_change readyState pngFile).1 (by decide)

end MerchMockup
